import Mathlib

/-!
# Shallow embedding of the ImplantHub backend (AgroTrilha repository)

This file embeds the data model and request handlers of the backend under
`backend/app` (SQLModel tables in `models.py`, the audit helper in `audit.py`,
the startup retry loop in `db.py`, the actor resolver in `security.py`, and the
routers `users.py`, `templates.py`, `projects.py`) as pure Lean functions over
an explicit database state, and proves the testable properties of the
specification against them.

Modelling conventions:
* The relational store is a record of lists of rows; SQL autoincrement primary
  keys are modelled as `max existing id + 1` (SQLite rowid style).
* `datetime.utcnow()` is an abstract clock: each handler takes one `Nat`
  argument per textual `utcnow()` call site (and per column default evaluated
  during the request), in source order.
* `jsonable_encoder` / `model_dump` are modelled by explicit encoders into a
  `Json` inductive; a `datetime` renders as a string (ISO-8601 rendering
  abstracted to the decimal rendering of the clock value).
* A handler is a function `DB → args → Except HTTPError result × DB`: raising
  `HTTPException` returns `.error` together with the store as it was at the
  raise point (all raises in this code base happen before any write).
-/

/-- JSON values, the storage form of `AuditLog.before` / `AuditLog.after`
(after `jsonable_encoder` in `audit.py`). -/
inductive Json where
  | null
  | bool (b : Bool)
  | num (n : Int)
  | str (s : String)
  | arr (xs : List Json)
  | obj (fields : List (String × Json))
deriving Repr

/-- A `datetime` value run through `jsonable_encoder` becomes an ISO-8601
string; the rendering is abstracted to the decimal rendering of the clock. -/
def encodeTime (t : Nat) : Json := Json.str (toString t)

/-- An `Optional[int]` column under `model_dump` / `jsonable_encoder`. -/
def encodeOptNat : Option Nat → Json
  | none => Json.null
  | some n => Json.num (n : Int)

/-! ## Table rows (`models.py`) -/

/-- `Template` table: id, name, description. -/
structure TemplateRow where
  id : Nat
  name : String
  description : String
deriving Repr, DecidableEq

/-- `Phase` table: id, template_id, name, order. -/
structure PhaseRow where
  id : Nat
  template_id : Nat
  name : String
  order : Int
deriving Repr, DecidableEq

/-- `Activity` table: id, phase_id, name, description, definition_of_done. -/
structure ActivityRow where
  id : Nat
  phase_id : Nat
  name : String
  description : String
  definition_of_done : String
deriving Repr, DecidableEq

/-- `Requirement` table. -/
structure RequirementRow where
  id : Nat
  title : String
  description : String
deriving Repr, DecidableEq

/-- `Decision` table. -/
structure DecisionRow where
  id : Nat
  title : String
  description : String
  rationale : String
  created_at : Nat
deriving Repr, DecidableEq

/-- `Project` table. -/
structure ProjectRow where
  id : Nat
  template_id : Nat
  client_name : String
  status : String
  created_at : Nat
  updated_at : Nat
  created_by_user_id : Option Nat
  updated_by_user_id : Option Nat
deriving Repr, DecidableEq

/-- `ChecklistItem` table (`activity_id` is nullable: manual items). -/
structure ChecklistItemRow where
  id : Nat
  project_id : Nat
  activity_id : Option Nat
  title : String
  status : String
  assignee : String
  notes : String
  updated_at : Nat
  updated_by_user_id : Option Nat
deriving Repr, DecidableEq

/-- `User` table. -/
structure UserRow where
  id : Nat
  name : String
  email : String
  created_at : Nat
deriving Repr, DecidableEq

/-- `ProjectMember` table, composite primary key (project_id, user_id). -/
structure ProjectMemberRow where
  project_id : Nat
  user_id : Nat
  role : String
  joined_at : Nat
deriving Repr, DecidableEq

/-- `AuditLog` table (append-only). -/
structure AuditLogRow where
  id : Nat
  project_id : Option Nat
  actor_user_id : Option Nat
  action : String
  entity_type : String
  entity_id : Option Nat
  before : Option Json
  after : Option Json
  created_at : Nat
  note : String
deriving Repr

/-! ## `model_dump` encoders (pydantic dump of each row, JSON-encoded) -/

/-- `User.model_dump()` through `jsonable_encoder`. -/
def UserRow.model_dump (u : UserRow) : Json :=
  Json.obj [("id", Json.num (u.id : Int)), ("name", Json.str u.name),
    ("email", Json.str u.email), ("created_at", encodeTime u.created_at)]

/-- `Template.model_dump()` through `jsonable_encoder`. -/
def TemplateRow.model_dump (t : TemplateRow) : Json :=
  Json.obj [("id", Json.num (t.id : Int)), ("name", Json.str t.name),
    ("description", Json.str t.description)]

/-- `Project.model_dump()` through `jsonable_encoder`. -/
def ProjectRow.model_dump (p : ProjectRow) : Json :=
  Json.obj [("id", Json.num (p.id : Int)), ("template_id", Json.num (p.template_id : Int)),
    ("client_name", Json.str p.client_name), ("status", Json.str p.status),
    ("created_at", encodeTime p.created_at), ("updated_at", encodeTime p.updated_at),
    ("created_by_user_id", encodeOptNat p.created_by_user_id),
    ("updated_by_user_id", encodeOptNat p.updated_by_user_id)]

/-- `ChecklistItem.model_dump()` through `jsonable_encoder`. -/
def ChecklistItemRow.model_dump (it : ChecklistItemRow) : Json :=
  Json.obj [("id", Json.num (it.id : Int)), ("project_id", Json.num (it.project_id : Int)),
    ("activity_id", encodeOptNat it.activity_id), ("title", Json.str it.title),
    ("status", Json.str it.status), ("assignee", Json.str it.assignee),
    ("notes", Json.str it.notes), ("updated_at", encodeTime it.updated_at),
    ("updated_by_user_id", encodeOptNat it.updated_by_user_id)]

/-- `ProjectMember.model_dump()` through `jsonable_encoder` (the full
post-mutation state of a membership row). -/
def ProjectMemberRow.model_dump (m : ProjectMemberRow) : Json :=
  Json.obj [("project_id", Json.num (m.project_id : Int)),
    ("user_id", Json.num (m.user_id : Int)), ("role", Json.str m.role),
    ("joined_at", encodeTime m.joined_at)]

/-! ## The store -/

/-- The relational store: one list per table. -/
structure DB where
  templates : List TemplateRow := []
  phases : List PhaseRow := []
  activities : List ActivityRow := []
  requirements : List RequirementRow := []
  decisions : List DecisionRow := []
  activity_requirements : List (Nat × Nat) := []
  activity_decisions : List (Nat × Nat) := []
  projects : List ProjectRow := []
  checklist_items : List ChecklistItemRow := []
  users : List UserRow := []
  project_members : List ProjectMemberRow := []
  audit_logs : List AuditLogRow := []
deriving Repr

/-- Autoincrement primary key: one more than the largest id in use. -/
def nextId (ids : List Nat) : Nat := ids.foldr max 0 + 1

/-- HTTP errors raised by the handlers (`HTTPException` status + detail), plus
the framework-level request-validation rejection (422). -/
inductive HTTPError where
  | notFound (detail : String)
  | conflict (detail : String)
  | validation
deriving Repr, DecidableEq

/-! ## `audit.py` -/

/-- `audit(session, *, project_id, actor_user_id, action, entity_type,
entity_id, before, after, note)`: inserts one `AuditLog` row and commits.
The callers pass `before` / `after` already encoded to `Json` (this models
`jsonable_encoder` applied to the Python values they pass). `t_row` is the
`created_at` column default evaluated at insert time. -/
def audit (db : DB) (project_id : Option Nat) (actor_user_id : Option Nat)
    (action : String) (entity_type : String) (entity_id : Option Nat)
    (before : Option Json) (after : Option Json) (note : String)
    (t_row : Nat) : DB :=
  { db with audit_logs := db.audit_logs ++
      [{ id := nextId (db.audit_logs.map (fun r => r.id)),
         project_id := project_id, actor_user_id := actor_user_id,
         action := action, entity_type := entity_type, entity_id := entity_id,
         before := before, after := after, created_at := t_row, note := note }] }

/-! ## `security.py` — actor resolver -/

/-- Whether a character is an ASCII decimal digit. -/
def isDigitChar (c : Char) : Bool := decide ('0' ≤ c) && decide (c ≤ '9')

/-- Accumulate the value of a digit string; `none` on a non-digit. -/
def digitsVal : List Char → Nat → Option Nat
  | [], acc => some acc
  | c :: cs, acc =>
      if isDigitChar c then digitsVal cs (acc * 10 + (c.toNat - '0'.toNat)) else none

/-- Integer syntax accepted by the `int` coercion: optional sign, then one or
more decimal digits. -/
def parseIntChars : List Char → Option Int
  | [] => none
  | '-' :: cs => if cs = [] then none else (digitsVal cs 0).map (fun n => -(n : Int))
  | '+' :: cs => if cs = [] then none else (digitsVal cs 0).map (fun n => (n : Int))
  | cs => (digitsVal cs 0).map (fun n => (n : Int))

/-- The string-to-`int` coercion the framework applies to a header declared
`Optional[int]` (pydantic: the raw header text must parse as an integer). -/
def parseIntHeader (s : String) : Option Int := parseIntChars s.data

/-- `get_actor_user_id` (`security.py`) together with the framework's handling
of its declared parameter type `Optional[int] = Header(default=None,
alias="X-User-Id")`: an absent header yields the default `None`; a present
header is coerced to `int`, and a value that does not parse as an integer
fails request validation (HTTP 422) before the handler body runs. The handler
body itself just returns the parameter. -/
def get_actor_user_id (header : Option String) : Except HTTPError (Option Int) :=
  match header with
  | none => Except.ok none
  | some s =>
      match parseIntHeader s with
      | some n => Except.ok (some n)
      | none => Except.error HTTPError.validation

/-! ## `routers/users.py` -/

/-- `POST /users`: refuse a duplicate email (409), else insert the user and
audit with action `"user.create"`, `after` = the created user's dump.
`t_user` is the `created_at` default at insert, `t_audit` the audit row's. -/
def create_user (db : DB) (payload_name payload_email : String)
    (actor_user_id : Option Nat) (t_user t_audit : Nat) :
    Except HTTPError UserRow × DB :=
  match db.users.find? (fun u => u.email = payload_email) with
  | some _ => (Except.error (HTTPError.conflict "Já existe usuário com este email."), db)
  | none =>
      let u : UserRow :=
        { id := nextId (db.users.map (fun x => x.id)),
          name := payload_name, email := payload_email, created_at := t_user }
      let db1 := { db with users := db.users ++ [u] }
      let db2 := audit db1 none actor_user_id "user.create" "User" (some u.id)
        none (some u.model_dump) "Usuário criado" t_audit
      (Except.ok u, db2)

/-- `GET /users`: all users, `ORDER BY created_at DESC`. -/
def list_users (db : DB) : List UserRow :=
  List.insertionSort (fun a b => b.created_at ≤ a.created_at) db.users

/-! ## `routers/templates.py` -/

/-- Request body `ActivityIn`. -/
structure ActivityIn where
  name : String
  description : String := ""
  definition_of_done : String := ""
deriving Repr, DecidableEq

/-- Request body `PhaseIn`. -/
structure PhaseIn where
  name : String
  order : Int := 0
  activities : List ActivityIn := []
deriving Repr, DecidableEq

/-- Request body `TemplateIn`. -/
structure TemplateIn where
  name : String
  description : String := ""
  phases : List PhaseIn := []
deriving Repr, DecidableEq

/-- Insert one `Activity` row under a phase (inner loop of `create_template`). -/
def insertActivity (phase_id : Nat) (db : DB) (ac : ActivityIn) : DB :=
  { db with activities := db.activities ++
      [{ id := nextId (db.activities.map (fun a => a.id)), phase_id := phase_id,
         name := ac.name, description := ac.description,
         definition_of_done := ac.definition_of_done }] }

/-- Insert one `Phase` row and its activities (outer loop of `create_template`). -/
def insertPhase (template_id : Nat) (db : DB) (ph : PhaseIn) : DB :=
  let pid := nextId (db.phases.map (fun p => p.id))
  let db1 := { db with phases := db.phases ++
      [{ id := pid, template_id := template_id, name := ph.name, order := ph.order }] }
  ph.activities.foldl (insertActivity pid) db1

/-- `POST /templates`: insert the template, then each phase with its
activities, then audit with action `"template.create"`, `after` =
`{template dump, phases_count}`. -/
def create_template (db : DB) (payload : TemplateIn)
    (actor_user_id : Option Nat) (t_audit : Nat) :
    Except HTTPError TemplateRow × DB :=
  let tpl : TemplateRow :=
    { id := nextId (db.templates.map (fun t => t.id)),
      name := payload.name, description := payload.description }
  let db1 := { db with templates := db.templates ++ [tpl] }
  let db2 := payload.phases.foldl (insertPhase tpl.id) db1
  let db3 := audit db2 none actor_user_id "template.create" "Template" (some tpl.id)
    none
    (some (Json.obj [("template", tpl.model_dump),
                     ("phases_count", Json.num (payload.phases.length : Int))]))
    "Template criado" t_audit
  (Except.ok tpl, db3)

/-- `GET /templates/{id}`: 404 if absent; else the template, its phases
`ORDER BY order` (ascending), each paired with its activities (unordered
`SELECT ... WHERE phase_id = ...`). -/
def get_template (db : DB) (template_id : Nat) :
    Except HTTPError (TemplateRow × List (PhaseRow × List ActivityRow)) :=
  match db.templates.find? (fun t => t.id = template_id) with
  | none => Except.error (HTTPError.notFound "Template não encontrado.")
  | some tpl =>
      let phs := List.insertionSort (fun a b => a.order ≤ b.order)
        (db.phases.filter (fun p => p.template_id = template_id))
      Except.ok (tpl, phs.map (fun ph => (ph, db.activities.filter (fun a => a.phase_id = ph.id))))

/-- `POST /templates/link-requirement`: 404 if the activity is absent; else
insert a `Requirement` and a link row, audit with action
`"template.requirement.link"`. -/
def link_requirement (db : DB) (payload_activity_id : Nat)
    (payload_title payload_description : String)
    (actor_user_id : Option Nat) (t_audit : Nat) :
    Except HTTPError (Nat × Nat) × DB :=
  match db.activities.find? (fun a => a.id = payload_activity_id) with
  | none => (Except.error (HTTPError.notFound "Atividade não encontrada."), db)
  | some a =>
      let req : RequirementRow :=
        { id := nextId (db.requirements.map (fun r => r.id)),
          title := payload_title, description := payload_description }
      let db1 :=
        { db with requirements := db.requirements ++ [req],
                  activity_requirements := db.activity_requirements ++ [(a.id, req.id)] }
      let db2 := audit db1 none actor_user_id "template.requirement.link"
        "ActivityRequirementLink" none none
        (some (Json.obj [("activity_id", Json.num (a.id : Int)),
                         ("requirement_id", Json.num (req.id : Int))]))
        "Requisito linkado à atividade" t_audit
      (Except.ok (a.id, req.id), db2)

/-- `POST /templates/link-decision`: 404 if the activity is absent; else
insert a `Decision` and a link row, audit with action
`"template.decision.link"`. `t_dec` is the decision's `created_at` default. -/
def link_decision (db : DB) (payload_activity_id : Nat)
    (payload_title payload_description payload_rationale : String)
    (actor_user_id : Option Nat) (t_dec t_audit : Nat) :
    Except HTTPError (Nat × Nat) × DB :=
  match db.activities.find? (fun a => a.id = payload_activity_id) with
  | none => (Except.error (HTTPError.notFound "Atividade não encontrada."), db)
  | some a =>
      let d : DecisionRow :=
        { id := nextId (db.decisions.map (fun r => r.id)),
          title := payload_title, description := payload_description,
          rationale := payload_rationale, created_at := t_dec }
      let db1 :=
        { db with decisions := db.decisions ++ [d],
                  activity_decisions := db.activity_decisions ++ [(a.id, d.id)] }
      let db2 := audit db1 none actor_user_id "template.decision.link"
        "ActivityDecisionLink" none none
        (some (Json.obj [("activity_id", Json.num (a.id : Int)),
                         ("decision_id", Json.num (d.id : Int))]))
        "Decisão linkada à atividade" t_audit
      (Except.ok (a.id, d.id), db2)

/-! ## `routers/projects.py` -/

/-- `SELECT Phase WHERE template_id = tid` in `create_project`. -/
def templatePhases (db : DB) (tid : Nat) : List PhaseRow :=
  db.phases.filter (fun p => p.template_id = tid)

/-- The activities loaded by `create_project`: those whose `phase_id` is among
the template's phase ids (guarded by the `if phase_ids` truthiness check). -/
def templateActivities (db : DB) (tid : Nat) : List ActivityRow :=
  let phase_ids := (templatePhases db tid).map (fun p => p.id)
  if phase_ids.isEmpty then []
  else db.activities.filter (fun a => phase_ids.contains a.phase_id)

/-- The checklist rows generated for a new project: one per activity, title =
activity name, default status `"todo"`, default empty assignee/notes, ids
assigned sequentially from `base`. -/
def mkChecklistItems (pid : Nat) (actor_user_id : Option Nat) (now : Nat) :
    Nat → List ActivityRow → List ChecklistItemRow
  | _, [] => []
  | base, a :: rest =>
      { id := base, project_id := pid, activity_id := some a.id, title := a.name,
        status := "todo", assignee := "", notes := "",
        updated_at := now, updated_by_user_id := actor_user_id } ::
      mkChecklistItems pid actor_user_id now (base + 1) rest

/-- `POST /projects` (`create_project`): 404 if the template is absent; else
insert the project (stamped `now`, creator/updater = actor), load the
template's phases and their activities, insert one checklist item per
activity, audit with action `"project.create"` and `after` =
`{project dump, checklist_items count}`; return (project_id, item count). -/
def create_project (db : DB) (payload_template_id : Nat) (payload_client_name : String)
    (actor_user_id : Option Nat) (now t_audit : Nat) :
    Except HTTPError (Nat × Nat) × DB :=
  match db.templates.find? (fun t => t.id = payload_template_id) with
  | none => (Except.error (HTTPError.notFound "Template não encontrado."), db)
  | some _ =>
      let pid := nextId (db.projects.map (fun p => p.id))
      let project : ProjectRow :=
        { id := pid, template_id := payload_template_id,
          client_name := payload_client_name, status := "active",
          created_at := now, updated_at := now,
          created_by_user_id := actor_user_id, updated_by_user_id := actor_user_id }
      let db1 := { db with projects := db.projects ++ [project] }
      let acts := templateActivities db1 payload_template_id
      let items := mkChecklistItems pid actor_user_id now
        (nextId (db1.checklist_items.map (fun it => it.id))) acts
      let db2 := { db1 with checklist_items := db1.checklist_items ++ items }
      let db3 := audit db2 (some pid) actor_user_id "project.create" "Project"
        (some pid) none
        (some (Json.obj [("project", project.model_dump),
                         ("checklist_items", Json.num (acts.length : Int))]))
        "Projeto criado e checklist gerado" t_audit
      (Except.ok (pid, acts.length), db3)

/-- `GET /projects`: all projects, `ORDER BY created_at DESC`. -/
def list_projects (db : DB) : List ProjectRow :=
  List.insertionSort (fun a b => b.created_at ≤ a.created_at) db.projects

/-- Request body `ChecklistUpdateIn`: three optional fields; `none` models an
omitted field, `some ""` an explicit empty string. -/
structure ChecklistUpdateIn where
  status : Option String := none
  assignee : Option String := none
  notes : Option String := none
deriving Repr, DecidableEq

/-- `PATCH /projects/{project_id}/checklist/{item_id}`
(`update_checklist_item`): 404 unless an item with the given id exists and
belongs to the project; else apply exactly the present payload fields, stamp
the item's `updated_at` (`t_item`) and `updated_by_user_id`, commit; then, if
the project row exists, stamp its `updated_at` (`t_proj`) and
`updated_by_user_id`; finally audit with action `"checklist.update"`,
`before`/`after` = the item's dump before/after. Returns the updated item. -/
def update_checklist_item (db : DB) (project_id item_id : Nat)
    (payload : ChecklistUpdateIn) (actor_user_id : Option Nat)
    (t_item t_proj t_audit : Nat) :
    Except HTTPError ChecklistItemRow × DB :=
  match db.checklist_items.find? (fun it => it.id = item_id) with
  | none => (Except.error (HTTPError.notFound "Item não encontrado."), db)
  | some item =>
      if item.project_id ≠ project_id then
        (Except.error (HTTPError.notFound "Item não encontrado."), db)
      else
        let before := item.model_dump
        let item1 : ChecklistItemRow :=
          { item with
            status := payload.status.getD item.status,
            assignee := payload.assignee.getD item.assignee,
            notes := payload.notes.getD item.notes,
            updated_at := t_item, updated_by_user_id := actor_user_id }
        let db1 :=
          { db with checklist_items :=
              db.checklist_items.map (fun (it : ChecklistItemRow) =>
                if it.id = item_id then item1 else it) }
        let db2 :=
          match db1.projects.find? (fun p => p.id = project_id) with
          | some _ =>
              { db1 with projects := db1.projects.map (fun (p : ProjectRow) =>
                  if p.id = project_id then
                    { p with updated_at := t_proj, updated_by_user_id := actor_user_id }
                  else p) }
          | none => db1
        let db3 := audit db2 (some project_id) actor_user_id "checklist.update"
          "ChecklistItem" (some item1.id) (some before) (some item1.model_dump)
          "Atualização de checklist" t_audit
        (Except.ok item1, db3)

/-- `POST /projects/{project_id}/members` (`add_member`): 404 if the project
or the user is absent; 409 if a membership row for (project_id, user_id)
already exists; else insert the membership (`joined_at` default `t_join`),
stamp the project's `updated_at` (`t_touch`) and `updated_by_user_id`, commit,
and audit with action `"project.member.add"` and `after` =
`{project_id, user_id, role}`. -/
def add_member (db : DB) (project_id : Nat) (payload_user_id : Nat)
    (payload_role : String) (actor_user_id : Option Nat)
    (t_join t_touch t_audit : Nat) :
    Except HTTPError Unit × DB :=
  match db.projects.find? (fun p => p.id = project_id) with
  | none => (Except.error (HTTPError.notFound "Projeto não encontrado."), db)
  | some _ =>
      match db.users.find? (fun u => u.id = payload_user_id) with
      | none => (Except.error (HTTPError.notFound "Usuário não encontrado."), db)
      | some _ =>
          match db.project_members.find?
              (fun m => m.project_id = project_id ∧ m.user_id = payload_user_id) with
          | some _ => (Except.error (HTTPError.conflict "Usuário já faz parte do projeto."), db)
          | none =>
              let pm : ProjectMemberRow :=
                { project_id := project_id, user_id := payload_user_id,
                  role := payload_role, joined_at := t_join }
              let db1 :=
                { db with
                  project_members := db.project_members ++ [pm],
                  projects := db.projects.map (fun (p : ProjectRow) =>
                    if p.id = project_id then
                      { p with updated_at := t_touch, updated_by_user_id := actor_user_id }
                    else p) }
              let db2 := audit db1 (some project_id) actor_user_id
                "project.member.add" "ProjectMember" none none
                (some (Json.obj [("project_id", Json.num (project_id : Int)),
                                 ("user_id", Json.num (payload_user_id : Int)),
                                 ("role", Json.str payload_role)]))
                "Membro adicionado ao projeto" t_audit
              (Except.ok (), db2)

/-- `GET /projects/{project_id}/audit` (`list_audit`): 404 if the project is
absent; else the project's audit rows, `ORDER BY created_at DESC`. -/
def list_audit (db : DB) (project_id : Nat) :
    Except HTTPError (List AuditLogRow) :=
  match db.projects.find? (fun p => p.id = project_id) with
  | none => Except.error (HTTPError.notFound "Projeto não encontrado.")
  | some _ =>
      Except.ok (List.insertionSort (fun a b => b.created_at ≤ a.created_at)
        (db.audit_logs.filter (fun r => r.project_id = some project_id)))

/-! ## `db.py` — startup schema creation with retry -/

/-- One observable effect of `init_db`: a `create_all` attempt (numbered from
0) or a `time.sleep delay`. -/
inductive InitEvent where
  | attempt (i : Nat)
  | sleep (delay : Nat)
deriving Repr, DecidableEq

/-- The `for i in range(retries)` loop of `init_db` (`db.py`). `outcome i` is
what the `i`-th `SQLModel.metadata.create_all` call does: `none` = succeeds,
`some e` = raises `OperationalError e`. State: current index, remaining
iterations, the `last_err` variable, the event trace so far. Returns the full
trace and either `.ok ()` (the `return`) or `.error last_err` (the final
`raise last_err`; `none` there models raising the initial `None`). -/
def initLoop (outcome : Nat → Option String) (delay : Nat) :
    Nat → Nat → Option String → List InitEvent →
    List InitEvent × Except (Option String) Unit
  | _, 0, last_err, trace => (trace, Except.error last_err)
  | i, fuel + 1, _last_err, trace =>
      match outcome i with
      | none => (trace ++ [InitEvent.attempt i], Except.ok ())
      | some e => initLoop outcome delay (i + 1) fuel (some e)
          (trace ++ [InitEvent.attempt i, InitEvent.sleep delay])

/-- `init_db(retries=20, delay_seconds=1.5)`: run the retry loop from a
fresh state. The numeric delay is abstract (`delay`). -/
def init_db (outcome : Nat → Option String) (retries : Nat) (delay : Nat) :
    List InitEvent × Except (Option String) Unit :=
  initLoop outcome delay 0 retries none []

/-! ## Helper lemmas -/

/-- The generated checklist rows project, field by field, to the source
activities: one row per activity, owning project `pid`, status `"todo"`,
title = activity name, `activity_id` = the source activity. -/
theorem mkChecklistItems_map_proj (pid : Nat) (actor : Option Nat) (now : Nat) :
    ∀ (base : Nat) (acts : List ActivityRow),
      (mkChecklistItems pid actor now base acts).map
          (fun it => (it.project_id, it.status, it.title, it.activity_id)) =
        acts.map (fun a => (pid, "todo", a.name, some a.id)) := by
  intro base acts
  induction acts generalizing base with
  | nil => rfl
  | cons a rest ih => simp [mkChecklistItems, ih]

/-- `templateActivities` only reads the `phases` and `activities` tables, so
changing the `projects` table does not affect it. -/
theorem templateActivities_set_projects (db : DB) (ps : List ProjectRow) (tid : Nat) :
    templateActivities { db with projects := ps } tid = templateActivities db tid := rfl

/-- A project row whose fields are those `create_project` writes. -/
def freshProject (db : DB) (tid : Nat) (cname : String) (actor : Option Nat)
    (now : Nat) : ProjectRow :=
  { id := nextId (db.projects.map (fun p => p.id)), template_id := tid,
    client_name := cname, status := "active", created_at := now, updated_at := now,
    created_by_user_id := actor, updated_by_user_id := actor }

/-- C1: For every template with P phases and A total activities across them
(including A = 0), `create_project` on that template succeeds and creates
exactly A checklist items, each with status `"todo"`, each with title equal to
its source activity's name and `activity_id` referencing that activity; with
zero activities the project is still created and the returned item count
is 0. -/
theorem create_project_generates_checklist (db : DB) (tid : Nat) (cname : String)
    (actor : Option Nat) (now t_audit : Nat)
    (h : (db.templates.find? (fun t => t.id = tid)).isSome) :
    (create_project db tid cname actor now t_audit).1 =
      Except.ok ((freshProject db tid cname actor now).id,
                 (templateActivities db tid).length) ∧
    (create_project db tid cname actor now t_audit).2.projects =
      db.projects ++ [freshProject db tid cname actor now] ∧
    ∃ newItems : List ChecklistItemRow,
      (create_project db tid cname actor now t_audit).2.checklist_items =
        db.checklist_items ++ newItems ∧
      newItems.map (fun it => (it.project_id, it.status, it.title, it.activity_id)) =
        (templateActivities db tid).map
          (fun a => ((freshProject db tid cname actor now).id, "todo", a.name, some a.id)) := by
  obtain ⟨t, ht⟩ := Option.isSome_iff_exists.mp h
  refine ⟨?_, ?_, ?_⟩
  · simp [create_project, ht, freshProject, templateActivities_set_projects]
  · simp [create_project, ht, audit, freshProject]
  · refine ⟨mkChecklistItems (nextId (db.projects.map (fun p => p.id))) actor now
      (nextId (db.checklist_items.map (fun it => it.id))) (templateActivities db tid), ?_, ?_⟩
    · simp [create_project, ht, audit, templateActivities_set_projects]
    · simpa [freshProject] using mkChecklistItems_map_proj
        (nextId (db.projects.map (fun p => p.id))) actor now
        (nextId (db.checklist_items.map (fun it => it.id))) (templateActivities db tid)

/-- Concrete store for the C1 witness: one template (id 1) with two phases and
two activities. -/
def c1db : DB :=
  { templates := [⟨1, "Onboarding", ""⟩],
    phases := [⟨1, 1, "Build", 0⟩, ⟨2, 1, "Setup", 1⟩],
    activities := [⟨1, 1, "Kickoff", "", ""⟩, ⟨2, 2, "Deploy", "", ""⟩] }

/-- Witness for C1 at a concrete store. -/
theorem create_project_generates_checklist_witness :
    (create_project c1db 1 "Acme" (some 9) 3 4).1 =
      Except.ok ((freshProject c1db 1 "Acme" (some 9) 3).id,
                 (templateActivities c1db 1).length) ∧
    (create_project c1db 1 "Acme" (some 9) 3 4).2.projects =
      c1db.projects ++ [freshProject c1db 1 "Acme" (some 9) 3] ∧
    ∃ newItems : List ChecklistItemRow,
      (create_project c1db 1 "Acme" (some 9) 3 4).2.checklist_items =
        c1db.checklist_items ++ newItems ∧
      newItems.map (fun it => (it.project_id, it.status, it.title, it.activity_id)) =
        (templateActivities c1db 1).map
          (fun a => ((freshProject c1db 1 "Acme" (some 9) 3).id, "todo", a.name, some a.id)) :=
  create_project_generates_checklist c1db 1 "Acme" (some 9) 3 4 (by decide)

/-- C3: For every existing checklist item belonging to the given project,
`update_checklist_item` applies exactly the fields present in the request:
any of status, assignee, notes that is omitted keeps its prior value, while a
field supplied as the explicit empty string `""` is set to empty (omission
and empty are distinguished, `""` being an ordinary supplied value). -/
theorem update_checklist_item_partial (db : DB) (pid iid : Nat)
    (payload : ChecklistUpdateIn) (actor : Option Nat) (t1 t2 t3 : Nat)
    (item : ChecklistItemRow)
    (hfind : db.checklist_items.find? (fun it => it.id = iid) = some item)
    (hproj : item.project_id = pid) :
    ∃ item1 : ChecklistItemRow,
      (update_checklist_item db pid iid payload actor t1 t2 t3).1 = Except.ok item1 ∧
      (payload.status = none → item1.status = item.status) ∧
      (∀ s, payload.status = some s → item1.status = s) ∧
      (payload.assignee = none → item1.assignee = item.assignee) ∧
      (∀ s, payload.assignee = some s → item1.assignee = s) ∧
      (payload.notes = none → item1.notes = item.notes) ∧
      (∀ s, payload.notes = some s → item1.notes = s) := by
  refine
    ⟨{ item with
        status := payload.status.getD item.status,
        assignee := payload.assignee.getD item.assignee,
        notes := payload.notes.getD item.notes,
        updated_at := t1, updated_by_user_id := actor },
      ?_, ?_, ?_, ?_, ?_, ?_, ?_⟩
  · simp [update_checklist_item, hfind, hproj]
  · intro h; simp [h]
  · intro s h; simp [h]
  · intro h; simp [h]
  · intro s h; simp [h]
  · intro h; simp [h]
  · intro s h; simp [h]

/-- Concrete store for the checklist-update witnesses: one project (id 1)
with one checklist item (id 1). -/
def updDB : DB :=
  { templates := [⟨1, "T", ""⟩],
    projects := [⟨1, 1, "Acme", "active", 0, 0, none, none⟩],
    checklist_items := [⟨1, 1, some 1, "Kickoff", "todo", "ana", "old notes", 0, none⟩] }

/-- Witness for C3: updating with `{status: "doing", notes: ""}` at a concrete
store (assignee omitted). -/
theorem update_checklist_item_partial_witness :
    ∃ item1 : ChecklistItemRow,
      (update_checklist_item updDB 1 1 ⟨some "doing", none, some ""⟩ (some 7) 5 6 7).1 =
        Except.ok item1 ∧
      ((⟨some "doing", none, some ""⟩ : ChecklistUpdateIn).status = none →
        item1.status = "todo") ∧
      (∀ s, (⟨some "doing", none, some ""⟩ : ChecklistUpdateIn).status = some s →
        item1.status = s) ∧
      ((⟨some "doing", none, some ""⟩ : ChecklistUpdateIn).assignee = none →
        item1.assignee = "ana") ∧
      (∀ s, (⟨some "doing", none, some ""⟩ : ChecklistUpdateIn).assignee = some s →
        item1.assignee = s) ∧
      ((⟨some "doing", none, some ""⟩ : ChecklistUpdateIn).notes = none →
        item1.notes = "old notes") ∧
      (∀ s, (⟨some "doing", none, some ""⟩ : ChecklistUpdateIn).notes = some s →
        item1.notes = s) :=
  update_checklist_item_partial updDB 1 1 ⟨some "doing", none, some ""⟩ (some 7) 5 6 7
    ⟨1, 1, some 1, "Kickoff", "todo", "ana", "old notes", 0, none⟩ (by decide) (by decide)

/-- C6: `update_checklist_item` fails with NotFound exactly when no checklist
item with id `iid` exists or the (found) item's `project_id` differs from
`pid`; any failing call leaves the stored state unchanged. -/
theorem update_checklist_item_notfound (db : DB) (pid iid : Nat)
    (payload : ChecklistUpdateIn) (actor : Option Nat) (t1 t2 t3 : Nat) :
    ((update_checklist_item db pid iid payload actor t1 t2 t3).1 =
        Except.error (HTTPError.notFound "Item não encontrado.") ↔
      ∀ item, db.checklist_items.find? (fun it => it.id = iid) = some item →
        item.project_id ≠ pid) ∧
    (∀ e, (update_checklist_item db pid iid payload actor t1 t2 t3).1 = Except.error e →
      (update_checklist_item db pid iid payload actor t1 t2 t3).2 = db) := by
  cases hfind : db.checklist_items.find? (fun it => it.id = iid) with
  | none => simp [update_checklist_item, hfind]
  | some item =>
      by_cases hp : item.project_id = pid
      · simp [update_checklist_item, hfind, hp]
      · simp [update_checklist_item, hfind, hp]

/-- Witness for C6 at a concrete store: item 1 exists but belongs to project
1, so updating it through project 2 is NotFound and changes nothing. -/
theorem update_checklist_item_notfound_witness :
    (((update_checklist_item updDB 2 1 ⟨some "doing", none, none⟩ none 5 6 7).1 =
        Except.error (HTTPError.notFound "Item não encontrado.") ↔
      ∀ item, updDB.checklist_items.find? (fun it => it.id = 1) = some item →
        item.project_id ≠ 2) ∧
    (∀ e, (update_checklist_item updDB 2 1 ⟨some "doing", none, none⟩ none 5 6 7).1 =
        Except.error e →
      (update_checklist_item updDB 2 1 ⟨some "doing", none, none⟩ none 5 6 7).2 = updDB)) :=
  update_checklist_item_notfound updDB 2 1 ⟨some "doing", none, none⟩ none 5 6 7

/-- The item as rewritten by the field-update block of `update_checklist_item`
(present payload fields applied, stamps overwritten). -/
def appliedItem (item : ChecklistItemRow) (payload : ChecklistUpdateIn)
    (actor : Option Nat) (t1 : Nat) : ChecklistItemRow :=
  { item with
    status := payload.status.getD item.status,
    assignee := payload.assignee.getD item.assignee,
    notes := payload.notes.getD item.notes,
    updated_at := t1, updated_by_user_id := actor }

/-- Explicit value of `update_checklist_item` on the success path (item found,
owned by the project, project row present). -/
theorem update_checklist_item_ok_eq (db : DB) (pid iid : Nat)
    (payload : ChecklistUpdateIn) (actor : Option Nat) (t1 t2 t3 : Nat)
    (item : ChecklistItemRow) (pr : ProjectRow)
    (hfind : db.checklist_items.find? (fun it => it.id = iid) = some item)
    (hproj : item.project_id = pid)
    (hpr : db.projects.find? (fun p => p.id = pid) = some pr) :
    update_checklist_item db pid iid payload actor t1 t2 t3 =
      (Except.ok (appliedItem item payload actor t1),
       audit
         { db with
           checklist_items := db.checklist_items.map (fun it =>
             if it.id = iid then appliedItem item payload actor t1 else it),
           projects := db.projects.map (fun (p : ProjectRow) =>
             if p.id = pid then
               { p with updated_at := t2, updated_by_user_id := actor }
             else p) }
         (some pid) actor "checklist.update" "ChecklistItem"
         (some (appliedItem item payload actor t1).id)
         (some item.model_dump) (some (appliedItem item payload actor t1).model_dump)
         "Atualização de checklist" t3) := by
  simp [update_checklist_item, hfind, hproj, hpr, appliedItem]

/-- C10: For every existing checklist item belonging to the given project
(whose project row exists), `update_checklist_item` with all three optional
fields absent still succeeds and is not a no-op: it overwrites the item's
`updated_at` with the current time and its `updated_by_user_id` with the
actor, updates the parent project's `updated_at` and `updated_by_user_id`,
and appends an audit row, even though status, assignee and notes are
unchanged. -/
theorem update_checklist_item_empty_payload (db : DB) (pid iid : Nat)
    (actor : Option Nat) (t1 t2 t3 : Nat) (item : ChecklistItemRow)
    (hfind : db.checklist_items.find? (fun it => it.id = iid) = some item)
    (hproj : item.project_id = pid)
    (hpr : (db.projects.find? (fun p => p.id = pid)).isSome) :
    (update_checklist_item db pid iid ⟨none, none, none⟩ actor t1 t2 t3).1 =
      Except.ok { item with updated_at := t1, updated_by_user_id := actor } ∧
    (∀ it ∈ (update_checklist_item db pid iid ⟨none, none, none⟩ actor t1 t2 t3).2.checklist_items,
       it.id = iid → it.status = item.status ∧ it.assignee = item.assignee ∧
         it.notes = item.notes ∧ it.updated_at = t1 ∧ it.updated_by_user_id = actor) ∧
    (∀ p ∈ (update_checklist_item db pid iid ⟨none, none, none⟩ actor t1 t2 t3).2.projects,
       p.id = pid → p.updated_at = t2 ∧ p.updated_by_user_id = actor) ∧
    ∃ row, (update_checklist_item db pid iid ⟨none, none, none⟩ actor t1 t2 t3).2.audit_logs =
        db.audit_logs ++ [row] ∧ row.action = "checklist.update" := by
  obtain ⟨pr, hpr'⟩ := Option.isSome_iff_exists.mp hpr
  rw [update_checklist_item_ok_eq db pid iid ⟨none, none, none⟩ actor t1 t2 t3 item pr
    hfind hproj hpr']
  refine ⟨rfl, ?_, ?_, ?_⟩
  · intro it hit hid
    simp only [audit] at hit
    rcases List.mem_map.mp hit with ⟨q, _, rfl⟩
    by_cases hqid : q.id = iid
    · simp [hqid, appliedItem]
    · rw [if_neg hqid] at hid ⊢
      exact absurd hid hqid
  · intro p hp hid
    simp only [audit] at hp
    rcases List.mem_map.mp hp with ⟨q, _, rfl⟩
    by_cases hqid : q.id = pid
    · simp [hqid]
    · rw [if_neg hqid] at hid ⊢
      exact absurd hid hqid
  · exact ⟨_, rfl, rfl⟩

/-- Witness for C10 at a concrete store. -/
theorem update_checklist_item_empty_payload_witness :
    (update_checklist_item updDB 1 1 ⟨none, none, none⟩ (some 3) 5 6 7).1 =
      Except.ok { (⟨1, 1, some 1, "Kickoff", "todo", "ana", "old notes", 0, none⟩ : ChecklistItemRow) with
          updated_at := 5, updated_by_user_id := some 3 } ∧
    (∀ it ∈ (update_checklist_item updDB 1 1 ⟨none, none, none⟩ (some 3) 5 6 7).2.checklist_items,
       it.id = 1 → it.status = "todo" ∧ it.assignee = "ana" ∧
         it.notes = "old notes" ∧ it.updated_at = 5 ∧ it.updated_by_user_id = some 3) ∧
    (∀ p ∈ (update_checklist_item updDB 1 1 ⟨none, none, none⟩ (some 3) 5 6 7).2.projects,
       p.id = 1 → p.updated_at = 6 ∧ p.updated_by_user_id = some 3) ∧
    ∃ row, (update_checklist_item updDB 1 1 ⟨none, none, none⟩ (some 3) 5 6 7).2.audit_logs =
        updDB.audit_logs ++ [row] ∧ row.action = "checklist.update" :=
  update_checklist_item_empty_payload updDB 1 1 (some 3) 5 6 7
    ⟨1, 1, some 1, "Kickoff", "todo", "ana", "old notes", 0, none⟩
    (by decide) (by decide) (by decide)

/-- `find?` commutes with a `map` whose function preserves the predicate. -/
theorem find?_map_comm {α : Type} (f : α → α) (q : α → Bool)
    (hq : ∀ x, q (f x) = q x) : ∀ l : List α, (l.map f).find? q = (l.find? q).map f := by
  intro l
  induction l with
  | nil => rfl
  | cons a l ih =>
      by_cases ha : q a
      · rw [List.map_cons, List.find?_cons_of_pos _ (by rw [hq a]; exact ha),
          List.find?_cons_of_pos _ ha]
        rfl
      · rw [List.map_cons, List.find?_cons_of_neg _ (by rw [hq a]; exact ha),
          List.find?_cons_of_neg _ ha, ih]

/-- Explicit value of `add_member` on the success path (project and user
found, no existing membership row). -/
theorem add_member_ok_eq (db : DB) (pid uid : Nat) (role : String)
    (actor : Option Nat) (t1 t2 t3 : Nat) (pr : ProjectRow) (u : UserRow)
    (hp : db.projects.find? (fun p => p.id = pid) = some pr)
    (hu : db.users.find? (fun x => x.id = uid) = some u)
    (hm : db.project_members.find?
      (fun m => m.project_id = pid ∧ m.user_id = uid) = none) :
    add_member db pid uid role actor t1 t2 t3 =
      (Except.ok (),
       audit
         { db with
           project_members := db.project_members ++ [⟨pid, uid, role, t1⟩],
           projects := db.projects.map (fun (p : ProjectRow) =>
             if p.id = pid then
               { p with updated_at := t2, updated_by_user_id := actor }
             else p) }
         (some pid) actor "project.member.add" "ProjectMember" none none
         (some (Json.obj [("project_id", Json.num (pid : Int)),
                          ("user_id", Json.num (uid : Int)),
                          ("role", Json.str role)]))
         "Membro adicionado ao projeto" t3) := by
  simp only [add_member, hp, hu, hm]

/-- C5: `add_member` fails with NotFound when the project or the user does
not exist, fails with Conflict when a membership row for the (project, user)
pair already exists, and on a first success an identical second call returns
Conflict while exactly one membership row exists for the pair; a successful
call also stamps the project's `updated_at` and `updated_by_user_id`. -/
theorem add_member_spec :
    (∀ (db : DB) (pid uid : Nat) (role : String) (actor : Option Nat) (t1 t2 t3 : Nat),
       db.projects.find? (fun p => p.id = pid) = none →
       add_member db pid uid role actor t1 t2 t3 =
         (Except.error (HTTPError.notFound "Projeto não encontrado."), db)) ∧
    (∀ (db : DB) (pid uid : Nat) (role : String) (actor : Option Nat) (t1 t2 t3 : Nat)
       (pr : ProjectRow),
       db.projects.find? (fun p => p.id = pid) = some pr →
       db.users.find? (fun x => x.id = uid) = none →
       add_member db pid uid role actor t1 t2 t3 =
         (Except.error (HTTPError.notFound "Usuário não encontrado."), db)) ∧
    (∀ (db : DB) (pid uid : Nat) (role : String) (actor : Option Nat) (t1 t2 t3 : Nat)
       (pr : ProjectRow) (u : UserRow) (pm0 : ProjectMemberRow),
       db.projects.find? (fun p => p.id = pid) = some pr →
       db.users.find? (fun x => x.id = uid) = some u →
       db.project_members.find?
         (fun m => m.project_id = pid ∧ m.user_id = uid) = some pm0 →
       add_member db pid uid role actor t1 t2 t3 =
         (Except.error (HTTPError.conflict "Usuário já faz parte do projeto."), db)) ∧
    (∀ (db : DB) (pid uid : Nat) (role : String) (actor : Option Nat) (t1 t2 t3 : Nat)
       (pr : ProjectRow) (u : UserRow),
       db.projects.find? (fun p => p.id = pid) = some pr →
       db.users.find? (fun x => x.id = uid) = some u →
       db.project_members.find?
         (fun m => m.project_id = pid ∧ m.user_id = uid) = none →
       (add_member db pid uid role actor t1 t2 t3).1 = Except.ok () ∧
       (add_member db pid uid role actor t1 t2 t3).2.project_members =
         db.project_members ++ [⟨pid, uid, role, t1⟩] ∧
       (∀ p ∈ (add_member db pid uid role actor t1 t2 t3).2.projects,
          p.id = pid → p.updated_at = t2 ∧ p.updated_by_user_id = actor) ∧
       (∀ (role2 : String) (actor2 : Option Nat) (s1 s2 s3 : Nat),
          (add_member (add_member db pid uid role actor t1 t2 t3).2
              pid uid role2 actor2 s1 s2 s3).1 =
            Except.error (HTTPError.conflict "Usuário já faz parte do projeto.") ∧
          (add_member (add_member db pid uid role actor t1 t2 t3).2
              pid uid role2 actor2 s1 s2 s3).2.project_members.countP
            (fun m => m.project_id = pid ∧ m.user_id = uid) = 1)) := by
  refine ⟨?_, ?_, ?_, ?_⟩
  · intro db pid uid role actor t1 t2 t3 hp
    simp only [add_member, hp]
  · intro db pid uid role actor t1 t2 t3 pr hp hu
    simp only [add_member, hp, hu]
  · intro db pid uid role actor t1 t2 t3 pr u pm0 hp hu hm
    simp only [add_member, hp, hu, hm]
  · intro db pid uid role actor t1 t2 t3 pr u hp hu hm
    have key := add_member_ok_eq db pid uid role actor t1 t2 t3 pr u hp hu hm
    set A := add_member db pid uid role actor t1 t2 t3 with hA
    have hmem1 : A.2.project_members =
        db.project_members ++ [⟨pid, uid, role, t1⟩] := by
      rw [key]
      rfl
    have hproj1 : A.2.projects =
        db.projects.map (fun (p : ProjectRow) =>
          if p.id = pid then
            { p with updated_at := t2, updated_by_user_id := actor }
          else p) := by
      rw [key]
      rfl
    have husers1 : A.2.users = db.users := by
      rw [key]
      rfl
    refine ⟨by rw [key], hmem1, ?_, ?_⟩
    · intro p hp2 hid
      rw [hproj1] at hp2
      rcases List.mem_map.mp hp2 with ⟨q, _, rfl⟩
      by_cases hq : q.id = pid
      · simp [hq]
      · rw [if_neg hq] at hid ⊢
        exact absurd hid hq
    · intro role2 actor2 s1 s2 s3
      have hqpres : ∀ x : ProjectRow,
          (fun (p : ProjectRow) => decide (p.id = pid))
            ((fun (p : ProjectRow) =>
              if p.id = pid then
                { p with updated_at := t2, updated_by_user_id := actor }
              else p) x) = decide (x.id = pid) := by
        intro x
        by_cases hx : x.id = pid
        · simp [hx]
        · simp [hx]
      have hp1 : A.2.projects.find? (fun p => p.id = pid) =
          some (if pr.id = pid then
            { pr with updated_at := t2, updated_by_user_id := actor } else pr) := by
        rw [hproj1, find?_map_comm _ _ hqpres, hp]
        rfl
      have hu1 : A.2.users.find? (fun x => x.id = uid) = some u := by
        rw [husers1]; exact hu
      have hm1 : A.2.project_members.find?
          (fun m => m.project_id = pid ∧ m.user_id = uid) =
          some ⟨pid, uid, role, t1⟩ := by
        rw [hmem1, List.find?_append, hm]
        simp
      have hzero : db.project_members.countP
          (fun m => m.project_id = pid ∧ m.user_id = uid) = 0 := by
        rw [List.countP_eq_zero]
        intro m hmmem
        simpa using List.find?_eq_none.mp hm m hmmem
      have hcall : add_member A.2 pid uid role2 actor2 s1 s2 s3 =
          (Except.error (HTTPError.conflict "Usuário já faz parte do projeto."), A.2) := by
        simp only [add_member, hp1, hu1, hm1]
      rw [hcall]
      refine ⟨rfl, ?_⟩
      rw [hmem1, List.countP_append, hzero]
      simp

/-- Concrete store for the C5 witness: project 1 and user 1 exist, no
membership rows yet. -/
def memDB : DB :=
  { templates := [⟨1, "T", ""⟩],
    projects := [⟨1, 1, "Acme", "active", 0, 0, none, none⟩],
    users := [⟨1, "Bea", "bea@x.com", 0⟩] }

/-- Witness for C5: the success-then-conflict conjunct at a concrete store. -/
theorem add_member_spec_witness :
    (add_member memDB 1 1 "member" (some 1) 5 6 7).1 = Except.ok () ∧
    (add_member memDB 1 1 "member" (some 1) 5 6 7).2.project_members =
      memDB.project_members ++ [⟨1, 1, "member", 5⟩] ∧
    (∀ p ∈ (add_member memDB 1 1 "member" (some 1) 5 6 7).2.projects,
       p.id = 1 → p.updated_at = 6 ∧ p.updated_by_user_id = some 1) ∧
    (∀ (role2 : String) (actor2 : Option Nat) (s1 s2 s3 : Nat),
       (add_member (add_member memDB 1 1 "member" (some 1) 5 6 7).2
           1 1 role2 actor2 s1 s2 s3).1 =
         Except.error (HTTPError.conflict "Usuário já faz parte do projeto.") ∧
       (add_member (add_member memDB 1 1 "member" (some 1) 5 6 7).2
           1 1 role2 actor2 s1 s2 s3).2.project_members.countP
         (fun m => m.project_id = 1 ∧ m.user_id = 1) = 1) :=
  add_member_spec.2.2.2 memDB 1 1 "member" (some 1) 5 6 7
    ⟨1, 1, "Acme", "active", 0, 0, none, none⟩ ⟨1, "Bea", "bea@x.com", 0⟩
    (by decide) (by decide) (by decide)

/-- C7: `getTemplate` fails with NotFound exactly when no template with the
given id exists; otherwise it returns the template together with its phases
sorted by the phases' `order` field ascending, each phase paired with its
activities. -/
theorem get_template_spec :
    (∀ (db : DB) (tid : Nat),
       db.templates.find? (fun t => t.id = tid) = none ↔
       get_template db tid = Except.error (HTTPError.notFound "Template não encontrado.")) ∧
    (∀ (db : DB) (tid : Nat) (tpl : TemplateRow)
       (phsActs : List (PhaseRow × List ActivityRow)),
       get_template db tid = Except.ok (tpl, phsActs) →
       db.templates.find? (fun t => t.id = tid) = some tpl ∧
       (phsActs.map Prod.fst).Pairwise (fun a b => a.order ≤ b.order) ∧
       (phsActs.map Prod.fst).Perm (db.phases.filter (fun p => p.template_id = tid)) ∧
       ∀ pa ∈ phsActs, pa.2 = db.activities.filter (fun a => a.phase_id = pa.1.id)) := by
  constructor
  · intro db tid
    cases hfind : db.templates.find? (fun t => t.id = tid) with
    | none => simp [get_template, hfind]
    | some tpl => simp [get_template, hfind]
  · intro db tid tpl phsActs h
    cases hfind : db.templates.find? (fun t => t.id = tid) with
    | none => simp [get_template, hfind] at h
    | some tpl0 =>
        haveI instTot : IsTotal PhaseRow (fun a b => a.order ≤ b.order) :=
          ⟨fun a b => Int.le_total a.order b.order⟩
        haveI instTrans : IsTrans PhaseRow (fun a b => a.order ≤ b.order) :=
          ⟨fun _ _ _ hab hbc => le_trans hab hbc⟩
        simp only [get_template, hfind, Except.ok.injEq, Prod.mk.injEq] at h
        obtain ⟨rfl, rfl⟩ := h
        refine ⟨rfl, ?_, ?_, ?_⟩
        · rw [List.map_map]
          have hcomp : (Prod.fst ∘ fun (ph : PhaseRow) =>
              (ph, db.activities.filter (fun a => a.phase_id = ph.id))) = id := rfl
          rw [hcomp, List.map_id]
          exact List.sorted_insertionSort _ _
        · rw [List.map_map]
          have hcomp : (Prod.fst ∘ fun (ph : PhaseRow) =>
              (ph, db.activities.filter (fun a => a.phase_id = ph.id))) = id := rfl
          rw [hcomp, List.map_id]
          exact List.perm_insertionSort _ _
        · intro pa hpa
          rcases List.mem_map.mp hpa with ⟨ph, _, rfl⟩
          rfl

/-- Concrete store for the C7 witness: the specification's example, phases
("Setup", order 1) and ("Build", order 0) under template 1. -/
def c7db : DB :=
  { templates := [⟨1, "T", ""⟩],
    phases := [⟨1, 1, "Setup", 1⟩, ⟨2, 1, "Build", 0⟩],
    activities := [⟨1, 1, "A1", "", ""⟩] }

/-- Witness for C7: on the example store, the phases come back ordered Build
(order 0) before Setup (order 1). -/
theorem get_template_spec_witness :
    c7db.templates.find? (fun t => t.id = 1) = some ⟨1, "T", ""⟩ ∧
    (([((⟨2, 1, "Build", 0⟩ : PhaseRow), ([] : List ActivityRow)),
       ((⟨1, 1, "Setup", 1⟩ : PhaseRow), ([⟨1, 1, "A1", "", ""⟩] : List ActivityRow))].map
        Prod.fst).Pairwise (fun a b => a.order ≤ b.order)) ∧
    (([((⟨2, 1, "Build", 0⟩ : PhaseRow), ([] : List ActivityRow)),
       ((⟨1, 1, "Setup", 1⟩ : PhaseRow), ([⟨1, 1, "A1", "", ""⟩] : List ActivityRow))].map
        Prod.fst).Perm (c7db.phases.filter (fun p => p.template_id = 1))) ∧
    (∀ pa ∈ [((⟨2, 1, "Build", 0⟩ : PhaseRow), ([] : List ActivityRow)),
       ((⟨1, 1, "Setup", 1⟩ : PhaseRow), ([⟨1, 1, "A1", "", ""⟩] : List ActivityRow))],
       pa.2 = c7db.activities.filter (fun a => a.phase_id = pa.1.id)) :=
  get_template_spec.2 c7db 1 ⟨1, "T", ""⟩
    [(⟨2, 1, "Build", 0⟩, []), (⟨1, 1, "Setup", 1⟩, [⟨1, 1, "A1", "", ""⟩])] (by rfl)

/-- Store with two projects sharing one `created_at`, one audit row: ties make
strictly-descending output impossible. -/
def c8db : DB :=
  { templates := [⟨1, "T", ""⟩],
    projects := [⟨1, 1, "A", "active", 5, 5, none, none⟩,
                 ⟨2, 1, "B", "active", 5, 5, none, none⟩] }

/-- Counterexample to C8 as stated: with two projects created at the same
instant, `list_projects` cannot be strictly descending in `created_at` (the
SQL `ORDER BY created_at DESC` is only non-strict). -/
theorem list_projects_strict_desc_cex :
    ¬ (list_projects c8db).Pairwise (fun a b => b.created_at < a.created_at) := by
  decide

/-- C8 (amended): `listProjects`, `listUsers` and a project's `listAudit`
return their rows in descending `created_at` order (non-strict: rows sharing
a timestamp may appear in either relative order), each output being a
permutation of the corresponding stored rows. -/
theorem lists_desc (db : DB) :
    (list_projects db).Pairwise (fun a b => b.created_at ≤ a.created_at) ∧
    (list_projects db).Perm db.projects ∧
    (list_users db).Pairwise (fun a b => b.created_at ≤ a.created_at) ∧
    (list_users db).Perm db.users ∧
    (∀ (pid : Nat) (logs : List AuditLogRow),
       list_audit db pid = Except.ok logs →
       logs.Pairwise (fun a b => b.created_at ≤ a.created_at) ∧
       logs.Perm (db.audit_logs.filter (fun r => r.project_id = some pid))) := by
  refine ⟨?_, List.perm_insertionSort _ _, ?_, List.perm_insertionSort _ _, ?_⟩
  · haveI : IsTotal ProjectRow (fun a b => b.created_at ≤ a.created_at) :=
      ⟨fun a b => Nat.le_total b.created_at a.created_at⟩
    haveI : IsTrans ProjectRow (fun a b => b.created_at ≤ a.created_at) :=
      ⟨fun _ _ _ h1 h2 => Nat.le_trans h2 h1⟩
    exact List.sorted_insertionSort _ _
  · haveI : IsTotal UserRow (fun a b => b.created_at ≤ a.created_at) :=
      ⟨fun a b => Nat.le_total b.created_at a.created_at⟩
    haveI : IsTrans UserRow (fun a b => b.created_at ≤ a.created_at) :=
      ⟨fun _ _ _ h1 h2 => Nat.le_trans h2 h1⟩
    exact List.sorted_insertionSort _ _
  · intro pid logs h
    cases hp : db.projects.find? (fun p => p.id = pid) with
    | none => simp [list_audit, hp] at h
    | some pr =>
        haveI : IsTotal AuditLogRow (fun a b => b.created_at ≤ a.created_at) :=
          ⟨fun a b => Nat.le_total b.created_at a.created_at⟩
        haveI : IsTrans AuditLogRow (fun a b => b.created_at ≤ a.created_at) :=
          ⟨fun _ _ _ h1 h2 => Nat.le_trans h2 h1⟩
        simp only [list_audit, hp, Except.ok.injEq] at h
        subst h
        exact ⟨List.sorted_insertionSort _ _, List.perm_insertionSort _ _⟩

/-- An audit row of the C8 witness store (project 1, created at 1). -/
def auditRowA : AuditLogRow :=
  ⟨1, some 1, none, "project.create", "Project", some 1, none, none, 1, ""⟩

/-- An audit row of the C8 witness store (project 1, created at 2). -/
def auditRowB : AuditLogRow :=
  ⟨2, some 1, none, "checklist.update", "ChecklistItem", some 1, none, none, 2, ""⟩

/-- Store for the C8 witness: one project with two audit rows. -/
def c8wdb : DB :=
  { templates := [⟨1, "T", ""⟩],
    projects := [⟨1, 1, "A", "active", 5, 5, none, none⟩],
    audit_logs := [auditRowA, auditRowB] }

/-- Witness for C8 (amended), discharging the `list_audit` hypothesis at a
concrete store: the newer row comes first. -/
theorem lists_desc_witness :
    ([auditRowB, auditRowA] : List AuditLogRow).Pairwise
      (fun a b => b.created_at ≤ a.created_at) ∧
    ([auditRowB, auditRowA] : List AuditLogRow).Perm
      (c8wdb.audit_logs.filter (fun r => r.project_id = some 1)) :=
  (lists_desc c8wdb).2.2.2.2 1 [auditRowB, auditRowA] (by rfl)

/-- Counterexample to C4 as stated: the header value `"abc"` is present but
not an integer, and the declared `Optional[int]` header parameter makes the
framework reject the request with a validation error (HTTP 422) instead of
resolving a null actor. -/
theorem get_actor_user_id_nonint_cex :
    get_actor_user_id (some "abc") = Except.error HTTPError.validation ∧
    get_actor_user_id (some "abc") ≠ Except.ok none := by
  constructor
  · rfl
  · intro h
    exact Except.noConfusion
      ((rfl : Except.error HTTPError.validation = get_actor_user_id (some "abc")).trans h)

/-- C4 (amended): the actor resolver yields a null actor exactly when the
X-User-Id header is absent; a present header parses to that integer actor
when its value is integer syntax, and otherwise the request fails framework
validation (422) before the handler runs — a malformed header does fail the
request. -/
theorem get_actor_user_id_spec :
    get_actor_user_id none = Except.ok none ∧
    (∀ (s : String) (n : Int), parseIntHeader s = some n →
       get_actor_user_id (some s) = Except.ok (some n)) ∧
    (∀ s : String, parseIntHeader s = none →
       get_actor_user_id (some s) = Except.error HTTPError.validation) := by
  refine ⟨rfl, ?_, ?_⟩
  · intro s n h
    simp [get_actor_user_id, h]
  · intro s h
    simp [get_actor_user_id, h]

/-- Witness for C4 (amended) at concrete headers "7" and "abc". -/
theorem get_actor_user_id_spec_witness :
    get_actor_user_id (some "7") = Except.ok (some 7) ∧
    get_actor_user_id (some "abc") = Except.error HTTPError.validation :=
  ⟨get_actor_user_id_spec.2.1 "7" 7 (by decide),
   get_actor_user_id_spec.2.2 "abc" (by decide)⟩

/-- The trace of `n` consecutive failed attempts starting at index `i`: each
`create_all` attempt is followed by one `time.sleep delay`. -/
def failTrace (delay : Nat) : Nat → Nat → List InitEvent
  | _, 0 => []
  | i, n + 1 => InitEvent.attempt i :: InitEvent.sleep delay :: failTrace delay (i + 1) n

/-- Whether an `InitEvent` is a `create_all` attempt. -/
def isAttempt : InitEvent → Bool
  | InitEvent.attempt _ => true
  | InitEvent.sleep _ => false

/-- `initLoop` when every remaining attempt fails: the trace gains one
attempt/sleep pair per iteration and the loop ends raising the error of the
last attempt. -/
theorem initLoop_all_fail (outcome : Nat → Option String) (delay : Nat) :
    ∀ (fuel i : Nat) (last : Option String) (trace : List InitEvent),
      0 < fuel → (∀ k, k < fuel → outcome (i + k) ≠ none) →
      initLoop outcome delay i fuel last trace =
        (trace ++ failTrace delay i fuel,
         Except.error (outcome (i + (fuel - 1)))) := by
  intro fuel
  induction fuel with
  | zero => intro i last trace h; exact absurd h (by simp)
  | succ n ih =>
      intro i last trace _ hall
      cases ho : outcome i with
      | none =>
          exact absurd ho (by simpa using hall 0 (Nat.succ_pos n))
      | some e =>
          cases n with
          | zero =>
              simp [initLoop, ho, failTrace]
          | succ m =>
              have hstep : initLoop outcome delay i (m + 1 + 1) last trace =
                  initLoop outcome delay (i + 1) (m + 1) (some e)
                    (trace ++ [InitEvent.attempt i, InitEvent.sleep delay]) := by
                simp [initLoop, ho]
              rw [hstep, ih (i + 1) (some e)
                (trace ++ [InitEvent.attempt i, InitEvent.sleep delay])
                (Nat.succ_pos m)
                (fun k hk => by
                  have := hall (k + 1) (by omega)
                  simpa [Nat.add_assoc, Nat.add_comm 1 k] using this)]
              have hidx : i + 1 + (m + 1 - 1) = i + (m + 1 + 1 - 1) := by omega
              rw [hidx]
              simp [failTrace, List.append_assoc]

/-- `initLoop` when the first success is the `j`-th attempt: the loop returns
immediately after that attempt, with `j` attempt/sleep pairs before it. -/
theorem initLoop_success (outcome : Nat → Option String) (delay : Nat) :
    ∀ (j i fuel : Nat) (last : Option String) (trace : List InitEvent),
      j < fuel → (∀ k, k < j → outcome (i + k) ≠ none) → outcome (i + j) = none →
      initLoop outcome delay i fuel last trace =
        (trace ++ failTrace delay i j ++ [InitEvent.attempt (i + j)],
         Except.ok ()) := by
  intro j
  induction j with
  | zero =>
      intro i fuel last trace hf _ hsucc
      cases fuel with
      | zero => omega
      | succ n =>
          simp [initLoop, (by simpa using hsucc : outcome i = none), failTrace]
  | succ m ih =>
      intro i fuel last trace hf hfail hsucc
      cases fuel with
      | zero => omega
      | succ n =>
          cases ho : outcome i with
          | none => exact absurd ho (by simpa using hfail 0 (Nat.succ_pos m))
          | some e =>
              have hstep : initLoop outcome delay i (n + 1) last trace =
                  initLoop outcome delay (i + 1) n (some e)
                    (trace ++ [InitEvent.attempt i, InitEvent.sleep delay]) := by
                simp [initLoop, ho]
              rw [hstep, ih (i + 1) n (some e) _ (by omega)
                (fun k hk => by
                  have := hfail (k + 1) (by omega)
                  simpa [Nat.add_assoc, Nat.add_comm 1 k] using this)
                (by
                  have harr : i + 1 + m = i + (m + 1) := by omega
                  rw [harr]; exact hsucc)]
              have hidx : i + 1 + m = i + (m + 1) := by omega
              rw [hidx]
              simp [failTrace, List.append_assoc]

/-- C9: `init_db` attempts schema creation up to `retries` times with a fixed
delay after each failed attempt, returns as soon as one attempt succeeds, and
if every attempt fails raises the error of the last failed attempt. The trace
makes the bound and the fixed delay explicit: a run that fails everywhere
performs exactly `retries` attempts, each followed by the same `sleep delay`;
a run whose first success is attempt `j` stops right after that attempt. -/
theorem init_db_retry_spec :
    (∀ (outcome : Nat → Option String) (retries delay : Nat),
       0 < retries → (∀ k, k < retries → outcome k ≠ none) →
       init_db outcome retries delay =
         (failTrace delay 0 retries, Except.error (outcome (retries - 1)))) ∧
    (∀ (outcome : Nat → Option String) (retries delay j : Nat),
       j < retries → (∀ k, k < j → outcome k ≠ none) → outcome j = none →
       init_db outcome retries delay =
         (failTrace delay 0 j ++ [InitEvent.attempt j], Except.ok ())) ∧
    (∀ (delay i n : Nat), ((failTrace delay i n).filter isAttempt).length = n) ∧
    (∀ (delay i n d : Nat), InitEvent.sleep d ∈ failTrace delay i n → d = delay) := by
  refine ⟨?_, ?_, ?_, ?_⟩
  · intro outcome retries delay hpos hall
    have := initLoop_all_fail outcome delay retries 0 none [] hpos
      (fun k hk => by simpa using hall k hk)
    simpa [init_db] using this
  · intro outcome retries delay j hj hfail hsucc
    have := initLoop_success outcome delay j 0 retries none [] hj
      (fun k hk => by simpa using hfail k hk) (by simpa using hsucc)
    simpa [init_db] using this
  · intro delay i n
    induction n generalizing i with
    | zero => rfl
    | succ m ih => simp [failTrace, isAttempt, ih]
  · intro delay i n d hmem
    induction n generalizing i with
    | zero => simp [failTrace] at hmem
    | succ m ih =>
        simp only [failTrace, List.mem_cons] at hmem
        rcases hmem with h | h | h
        · exact absurd h (by simp)
        · simpa using h
        · exact ih _ h

/-- Outcome function for the C9 witness: unreachable store for the first two
attempts, then healthy. -/
def flakyOutcome : Nat → Option String :=
  fun i => if i < 2 then some "connection refused" else none

/-- Outcome function for the C9 witness: store never reachable. -/
def downOutcome : Nat → Option String := fun _ => some "connection refused"

/-- Witness for C9: success on the third attempt stops the loop there;
permanent failure exhausts all three attempts and raises the last error. -/
theorem init_db_retry_spec_witness :
    init_db flakyOutcome 5 9 =
      (failTrace 9 0 2 ++ [InitEvent.attempt 2], Except.ok ()) ∧
    init_db downOutcome 3 9 =
      (failTrace 9 0 3, Except.error (downOutcome 2)) :=
  ⟨init_db_retry_spec.2.1 flakyOutcome 5 9 2 (by decide)
     (fun k hk => by simp [flakyOutcome]; omega) (by decide),
   init_db_retry_spec.1 downOutcome 3 9 (by decide)
     (fun k _ => by simp [downOutcome])⟩

/-- The inner activity loop of `create_template` touches only the
`activities` table. -/
theorem foldl_insertActivity_frame (pid : Nat) :
    ∀ (acs : List ActivityIn) (db : DB),
      (acs.foldl (insertActivity pid) db).templates = db.templates ∧
      (acs.foldl (insertActivity pid) db).audit_logs = db.audit_logs := by
  intro acs
  induction acs with
  | nil => exact fun db => ⟨rfl, rfl⟩
  | cons a rest ih =>
      intro db
      rw [List.foldl_cons]
      exact ⟨(ih _).1, (ih _).2⟩

/-- The phase loop of `create_template` touches only the `phases` and
`activities` tables. -/
theorem foldl_insertPhase_frame (tid : Nat) :
    ∀ (phs : List PhaseIn) (db : DB),
      (phs.foldl (insertPhase tid) db).templates = db.templates ∧
      (phs.foldl (insertPhase tid) db).audit_logs = db.audit_logs := by
  intro phs
  induction phs with
  | nil => exact fun db => ⟨rfl, rfl⟩
  | cons ph rest ih =>
      intro db
      rw [List.foldl_cons]
      refine ⟨(ih _).1.trans ?_, (ih _).2.trans ?_⟩
      · exact (foldl_insertActivity_frame _ _ _).1
      · exact (foldl_insertActivity_frame _ _ _).2

/-- Explicit value of `update_checklist_item` on the success path when the
parent project row is (anomalously) absent: the item is still updated and
audited, only the project stamp is skipped. -/
theorem update_checklist_item_ok_noproj_eq (db : DB) (pid iid : Nat)
    (payload : ChecklistUpdateIn) (actor : Option Nat) (t1 t2 t3 : Nat)
    (item : ChecklistItemRow)
    (hfind : db.checklist_items.find? (fun it => it.id = iid) = some item)
    (hproj : item.project_id = pid)
    (hpr : db.projects.find? (fun p => p.id = pid) = none) :
    update_checklist_item db pid iid payload actor t1 t2 t3 =
      (Except.ok (appliedItem item payload actor t1),
       audit
         { db with
           checklist_items := db.checklist_items.map (fun it =>
             if it.id = iid then appliedItem item payload actor t1 else it) }
         (some pid) actor "checklist.update" "ChecklistItem"
         (some (appliedItem item payload actor t1).id)
         (some item.model_dump) (some (appliedItem item payload actor t1).model_dump)
         "Atualização de checklist" t3) := by
  simp [update_checklist_item, hfind, hproj, hpr, appliedItem]

/-- C2 (amended): every successful mutating call appends exactly one new
`AuditLog` row whose `action` equals the documented tag for that operation
and whose `after` value is the JSON payload the operation documents, tied to
the stored post-mutation entity: the full dump for user creation and
checklist updates; the membership's (project_id, user_id, role) — without
`joined_at` — for member addition; and an entity-dump-plus-count or link-id
summary for template/project creation and requirement/decision links. -/
theorem audit_per_mutation :
    (∀ (db : DB) (nm em : String) (actor : Option Nat) (t ta : Nat)
       (u : UserRow) (db' : DB),
       create_user db nm em actor t ta = (Except.ok u, db') →
       db'.users = db.users ++ [u] ∧
       ∃ row, db'.audit_logs = db.audit_logs ++ [row] ∧
         row.action = "user.create" ∧ row.after = some u.model_dump) ∧
    (∀ (db : DB) (payload : TemplateIn) (actor : Option Nat) (ta : Nat)
       (tpl : TemplateRow) (db' : DB),
       create_template db payload actor ta = (Except.ok tpl, db') →
       db'.templates = db.templates ++ [tpl] ∧
       ∃ row, db'.audit_logs = db.audit_logs ++ [row] ∧
         row.action = "template.create" ∧
         row.after = some (Json.obj [("template", tpl.model_dump),
           ("phases_count", Json.num (payload.phases.length : Int))])) ∧
    (∀ (db : DB) (aid : Nat) (ttl dsc : String) (actor : Option Nat) (ta : Nat)
       (res : Nat × Nat) (db' : DB),
       link_requirement db aid ttl dsc actor ta = (Except.ok res, db') →
       ∃ req : RequirementRow, db'.requirements = db.requirements ++ [req] ∧
         req.id = res.2 ∧
       ∃ row, db'.audit_logs = db.audit_logs ++ [row] ∧
         row.action = "template.requirement.link" ∧
         row.after = some (Json.obj [("activity_id", Json.num (res.1 : Int)),
           ("requirement_id", Json.num (res.2 : Int))])) ∧
    (∀ (db : DB) (aid : Nat) (ttl dsc rat : String) (actor : Option Nat)
       (td ta : Nat) (res : Nat × Nat) (db' : DB),
       link_decision db aid ttl dsc rat actor td ta = (Except.ok res, db') →
       ∃ d : DecisionRow, db'.decisions = db.decisions ++ [d] ∧ d.id = res.2 ∧
       ∃ row, db'.audit_logs = db.audit_logs ++ [row] ∧
         row.action = "template.decision.link" ∧
         row.after = some (Json.obj [("activity_id", Json.num (res.1 : Int)),
           ("decision_id", Json.num (res.2 : Int))])) ∧
    (∀ (db : DB) (tid : Nat) (cname : String) (actor : Option Nat) (now ta : Nat)
       (res : Nat × Nat) (db' : DB),
       create_project db tid cname actor now ta = (Except.ok res, db') →
       ∃ p : ProjectRow, db'.projects = db.projects ++ [p] ∧ p.id = res.1 ∧
       ∃ row, db'.audit_logs = db.audit_logs ++ [row] ∧
         row.action = "project.create" ∧
         row.after = some (Json.obj [("project", p.model_dump),
           ("checklist_items", Json.num (res.2 : Int))])) ∧
    (∀ (db : DB) (pid iid : Nat) (payload : ChecklistUpdateIn)
       (actor : Option Nat) (t1 t2 t3 : Nat) (item1 : ChecklistItemRow) (db' : DB),
       update_checklist_item db pid iid payload actor t1 t2 t3 =
         (Except.ok item1, db') →
       item1 ∈ db'.checklist_items ∧
       ∃ row, db'.audit_logs = db.audit_logs ++ [row] ∧
         row.action = "checklist.update" ∧ row.after = some item1.model_dump) ∧
    (∀ (db : DB) (pid uid : Nat) (role : String) (actor : Option Nat)
       (t1 t2 t3 : Nat) (db' : DB),
       add_member db pid uid role actor t1 t2 t3 = (Except.ok (), db') →
       ∃ pm : ProjectMemberRow, db'.project_members = db.project_members ++ [pm] ∧
       ∃ row, db'.audit_logs = db.audit_logs ++ [row] ∧
         row.action = "project.member.add" ∧
         row.after = some (Json.obj [("project_id", Json.num (pm.project_id : Int)),
           ("user_id", Json.num (pm.user_id : Int)),
           ("role", Json.str pm.role)])) := by
  refine ⟨?_, ?_, ?_, ?_, ?_, ?_, ?_⟩
  · intro db nm em actor t ta u db' h
    cases hfind : db.users.find? (fun x => x.email = em) with
    | some u0 =>
        simp only [create_user, hfind, Prod.mk.injEq] at h
        exact absurd h.1 (by simp)
    | none =>
        simp only [create_user, hfind, Prod.mk.injEq, Except.ok.injEq] at h
        obtain ⟨rfl, rfl⟩ := h
        exact ⟨rfl, _, rfl, rfl, rfl⟩
  · intro db payload actor ta tpl db' h
    simp only [create_template, Prod.mk.injEq, Except.ok.injEq] at h
    obtain ⟨rfl, rfl⟩ := h
    refine ⟨(foldl_insertPhase_frame _ _ _).1, ?_⟩
    simp only [audit]
    rw [(foldl_insertPhase_frame _ _ _).2]
    exact ⟨_, rfl, rfl, rfl⟩
  · intro db aid ttl dsc actor ta res db' h
    cases hfind : db.activities.find? (fun a => a.id = aid) with
    | none =>
        simp only [link_requirement, hfind, Prod.mk.injEq] at h
        exact absurd h.1 (by simp)
    | some a =>
        simp only [link_requirement, hfind, Prod.mk.injEq, Except.ok.injEq] at h
        obtain ⟨rfl, rfl⟩ := h
        exact ⟨_, rfl, rfl, _, rfl, rfl, rfl⟩
  · intro db aid ttl dsc rat actor td ta res db' h
    cases hfind : db.activities.find? (fun a => a.id = aid) with
    | none =>
        simp only [link_decision, hfind, Prod.mk.injEq] at h
        exact absurd h.1 (by simp)
    | some a =>
        simp only [link_decision, hfind, Prod.mk.injEq, Except.ok.injEq] at h
        obtain ⟨rfl, rfl⟩ := h
        exact ⟨_, rfl, rfl, _, rfl, rfl, rfl⟩
  · intro db tid cname actor now ta res db' h
    cases hfind : db.templates.find? (fun t => t.id = tid) with
    | none =>
        simp only [create_project, hfind, Prod.mk.injEq] at h
        exact absurd h.1 (by simp)
    | some t =>
        simp only [create_project, hfind, Prod.mk.injEq, Except.ok.injEq] at h
        obtain ⟨rfl, rfl⟩ := h
        exact ⟨_, rfl, rfl, _, rfl, rfl, rfl⟩
  · intro db pid iid payload actor t1 t2 t3 item1 db' h
    cases hfind : db.checklist_items.find? (fun it => it.id = iid) with
    | none =>
        simp only [update_checklist_item, hfind, Prod.mk.injEq] at h
        exact absurd h.1 (by simp)
    | some item =>
        by_cases hproj : item.project_id = pid
        · have hid : item.id = iid := by simpa using List.find?_some hfind
          have hmemitem : item ∈ db.checklist_items := List.mem_of_find?_eq_some hfind
          cases hpr : db.projects.find? (fun p => p.id = pid) with
          | some pr =>
              rw [update_checklist_item_ok_eq db pid iid payload actor t1 t2 t3
                item pr hfind hproj hpr] at h
              simp only [Prod.mk.injEq, Except.ok.injEq] at h
              obtain ⟨rfl, rfl⟩ := h
              constructor
              · exact List.mem_map.mpr ⟨item, hmemitem, by rw [if_pos hid]⟩
              · exact ⟨_, rfl, rfl, rfl⟩
          | none =>
              rw [update_checklist_item_ok_noproj_eq db pid iid payload actor t1 t2 t3
                item hfind hproj hpr] at h
              simp only [Prod.mk.injEq, Except.ok.injEq] at h
              obtain ⟨rfl, rfl⟩ := h
              constructor
              · exact List.mem_map.mpr ⟨item, hmemitem, by rw [if_pos hid]⟩
              · exact ⟨_, rfl, rfl, rfl⟩
        · have : update_checklist_item db pid iid payload actor t1 t2 t3 =
              (Except.error (HTTPError.notFound "Item não encontrado."), db) := by
            simp [update_checklist_item, hfind, hproj]
          rw [this] at h
          simp only [Prod.mk.injEq] at h
          exact absurd h.1 (by simp)
  · intro db pid uid role actor t1 t2 t3 db' h
    cases hp : db.projects.find? (fun p => p.id = pid) with
    | none =>
        simp only [add_member, hp, Prod.mk.injEq] at h
        exact absurd h.1 (by simp)
    | some pr =>
        cases hu : db.users.find? (fun x => x.id = uid) with
        | none =>
            simp only [add_member, hp, hu, Prod.mk.injEq] at h
            exact absurd h.1 (by simp)
        | some u =>
            cases hm : db.project_members.find?
                (fun m => m.project_id = pid ∧ m.user_id = uid) with
            | some pm0 =>
                simp only [add_member, hp, hu, hm, Prod.mk.injEq] at h
                exact absurd h.1 (by simp)
            | none =>
                rw [add_member_ok_eq db pid uid role actor t1 t2 t3 pr u hp hu hm] at h
                simp only [Prod.mk.injEq] at h
                obtain ⟨-, rfl⟩ := h
                exact ⟨_, rfl, _, rfl, rfl, rfl⟩

/-- Counterexample to C2 as stated: on a successful `add_member`, the audit
row's `after` is `{project_id, user_id, role}` only — it does not match the
mutated membership row's post-mutation state, whose JSON dump also carries
`joined_at`. -/
theorem audit_member_after_cex :
    (add_member memDB 1 1 "member" (some 1) 5 6 7).2.project_members =
      [⟨1, 1, "member", 5⟩] ∧
    (add_member memDB 1 1 "member" (some 1) 5 6 7).2.audit_logs.map
        (fun r => r.after) =
      [some (Json.obj [("project_id", Json.num 1), ("user_id", Json.num 1),
                       ("role", Json.str "member")])] ∧
    Json.obj [("project_id", Json.num 1), ("user_id", Json.num 1),
              ("role", Json.str "member")] ≠
      (⟨1, 1, "member", 5⟩ : ProjectMemberRow).model_dump := by
  refine ⟨rfl, rfl, ?_⟩
  intro h
  simp [ProjectMemberRow.model_dump, encodeTime] at h

/-- Witness for C2 (amended): each conjunct applied at a concrete store. -/
theorem audit_per_mutation_witness :
    ((create_user {} "Ana" "a@x" none 1 2).2.users =
       ({} : DB).users ++ [⟨1, "Ana", "a@x", 1⟩] ∧
     ∃ row, (create_user {} "Ana" "a@x" none 1 2).2.audit_logs =
       ({} : DB).audit_logs ++ [row] ∧ row.action = "user.create" ∧
       row.after = some (⟨1, "Ana", "a@x", 1⟩ : UserRow).model_dump) ∧
    ((create_template {} ⟨"T", "", [⟨"P1", 0, [⟨"A1", "", ""⟩]⟩]⟩ none 2).2.templates =
       ({} : DB).templates ++ [⟨1, "T", ""⟩] ∧
     ∃ row, (create_template {} ⟨"T", "", [⟨"P1", 0, [⟨"A1", "", ""⟩]⟩]⟩ none 2).2.audit_logs =
       ({} : DB).audit_logs ++ [row] ∧ row.action = "template.create" ∧
       row.after = some (Json.obj [("template", (⟨1, "T", ""⟩ : TemplateRow).model_dump),
         ("phases_count", Json.num 1)])) ∧
    (∃ req : RequirementRow,
       (link_requirement c1db 1 "R" "D" none 9).2.requirements =
         c1db.requirements ++ [req] ∧ req.id = 1 ∧
     ∃ row, (link_requirement c1db 1 "R" "D" none 9).2.audit_logs =
       c1db.audit_logs ++ [row] ∧ row.action = "template.requirement.link" ∧
       row.after = some (Json.obj [("activity_id", Json.num 1),
         ("requirement_id", Json.num 1)])) ∧
    (∃ d : DecisionRow,
       (link_decision c1db 1 "Dec" "Ds" "Rt" none 8 9).2.decisions =
         c1db.decisions ++ [d] ∧ d.id = 1 ∧
     ∃ row, (link_decision c1db 1 "Dec" "Ds" "Rt" none 8 9).2.audit_logs =
       c1db.audit_logs ++ [row] ∧ row.action = "template.decision.link" ∧
       row.after = some (Json.obj [("activity_id", Json.num 1),
         ("decision_id", Json.num 1)])) ∧
    (∃ p : ProjectRow,
       (create_project c1db 1 "Acme" (some 9) 3 4).2.projects =
         c1db.projects ++ [p] ∧ p.id = 1 ∧
     ∃ row, (create_project c1db 1 "Acme" (some 9) 3 4).2.audit_logs =
       c1db.audit_logs ++ [row] ∧ row.action = "project.create" ∧
       row.after = some (Json.obj [("project", p.model_dump),
         ("checklist_items", Json.num 2)])) ∧
    ((⟨1, 1, some 1, "Kickoff", "done", "ana", "old notes", 5, some 7⟩ : ChecklistItemRow) ∈
       (update_checklist_item updDB 1 1 ⟨some "done", none, none⟩ (some 7) 5 6 7).2.checklist_items ∧
     ∃ row, (update_checklist_item updDB 1 1 ⟨some "done", none, none⟩ (some 7) 5 6 7).2.audit_logs =
       updDB.audit_logs ++ [row] ∧ row.action = "checklist.update" ∧
       row.after = some (⟨1, 1, some 1, "Kickoff", "done", "ana", "old notes", 5,
         some 7⟩ : ChecklistItemRow).model_dump) ∧
    (∃ pm : ProjectMemberRow,
       (add_member memDB 1 1 "lead" (some 1) 5 6 7).2.project_members =
         memDB.project_members ++ [pm] ∧
     ∃ row, (add_member memDB 1 1 "lead" (some 1) 5 6 7).2.audit_logs =
       memDB.audit_logs ++ [row] ∧ row.action = "project.member.add" ∧
       row.after = some (Json.obj [("project_id", Json.num (pm.project_id : Int)),
         ("user_id", Json.num (pm.user_id : Int)), ("role", Json.str pm.role)])) :=
  ⟨audit_per_mutation.1 {} "Ana" "a@x" none 1 2 ⟨1, "Ana", "a@x", 1⟩ _ (by rfl),
   audit_per_mutation.2.1 {} ⟨"T", "", [⟨"P1", 0, [⟨"A1", "", ""⟩]⟩]⟩ none 2
     ⟨1, "T", ""⟩ _ (by rfl),
   audit_per_mutation.2.2.1 c1db 1 "R" "D" none 9 (1, 1) _ (by rfl),
   audit_per_mutation.2.2.2.1 c1db 1 "Dec" "Ds" "Rt" none 8 9 (1, 1) _ (by rfl),
   audit_per_mutation.2.2.2.2.1 c1db 1 "Acme" (some 9) 3 4 (1, 2) _ (by rfl),
   audit_per_mutation.2.2.2.2.2.1 updDB 1 1 ⟨some "done", none, none⟩ (some 7) 5 6 7
     ⟨1, 1, some 1, "Kickoff", "done", "ana", "old notes", 5, some 7⟩ _ (by rfl),
   audit_per_mutation.2.2.2.2.2.2 memDB 1 1 "lead" (some 1) 5 6 7 _ (by rfl)⟩
